import Mathlib

/-!
A shallow embedding of the discord-rpc client library, covering the backoff
algorithm (src/backoff.rs), the binary framing protocol and connection state
machine (src/connection.rs), and the session-level orchestration pieces of
src/lib.rs that the verified properties refer to.

Machine integers are modelled as `Nat`/`Int` with explicit wrap-around where
the source performs a wrapping operation; `Duration` values are modelled as
rationals; the platform transport and the JSON (de)serializer are external
collaborators and enter as explicit parameters.
-/

namespace DiscordRpc

/-! ## Backoff (src/backoff.rs)

`Duration` is modelled as a rational number of seconds; `random::<f32>()` is
modelled as an explicit input `u` with `0 ≤ u < 1` supplied per call. -/

structure Backoff where
  bmin : ℚ
  bmax : ℚ
  current_delay : ℚ
deriving DecidableEq

def Backoff.new (mn mx : ℚ) : Backoff :=
  { bmin := mn, bmax := mx, current_delay := mn }

def Backoff.reset (b : Backoff) : Backoff :=
  { b with current_delay := b.bmin }

/-- `next`: `current_delay = min(max, current_delay + current_delay * (2 * u))`,
returning the new delay (src/backoff.rs lines 23-27). -/
def Backoff.next (b : Backoff) (u : ℚ) : ℚ × Backoff :=
  let d := min (b.current_delay + b.current_delay * (2 * u)) b.bmax
  (d, { b with current_delay := d })

/-- Repeated calls to `next`, one random sample per call; returns the list of
returned delays and the final state. -/
def Backoff.run (b : Backoff) (us : List ℚ) : List ℚ × Backoff :=
  match us with
  | [] => ([], b)
  | u :: rest =>
    let s := b.next u
    let r := s.2.run rest
    (s.1 :: r.1, r.2)

/-! ## Framing (src/connection.rs)

Bytes are `Nat`s; the little-endian `u32` header codec mirrors
`u32::to_le_bytes` / `u32::from_le_bytes` as used at
src/connection.rs lines 74-80 and 170-171. -/

def u32_to_le_bytes (n : ℕ) : List ℕ :=
  [n % 256, n / 256 % 256, n / 65536 % 256, n / 16777216 % 256]

def u32_from_le_bytes (bs : List ℕ) : ℕ :=
  bs.getD 0 0 + 256 * bs.getD 1 0 + 65536 * bs.getD 2 0 + 16777216 * bs.getD 3 0

/-- The byte sequence produced by `write_raw_message`: 4-byte LE opcode,
4-byte LE length (the length truncated to `u32`, as `message.len() as u32`),
then the payload. -/
def encode_frame (opcode : ℕ) (message : List ℕ) : List ℕ :=
  u32_to_le_bytes opcode ++ u32_to_le_bytes message.length ++ message

/-- The header/payload extraction performed by `Connection::read_json`
(src/connection.rs lines 154-184): read an 8-byte header, decode opcode and
length, then read exactly `length` payload bytes. `none` when the input does
not hold a complete frame. -/
def decode_frame (bytes : List ℕ) : Option (ℕ × List ℕ) :=
  if 8 ≤ bytes.length then
    let header := bytes.take 8
    let opcode := u32_from_le_bytes (header.take 4)
    let len := u32_from_le_bytes (header.drop 4)
    let rest := bytes.drop 8
    if len ≤ rest.length then some (opcode, rest.take len) else none
  else none

namespace opcode

def HANDSHAKE : ℕ := 0
def FRAME : ℕ := 1
def CLOSE : ℕ := 2
def PING : ℕ := 3
def PONG : ℕ := 4

end opcode

namespace error_code

def PIPE_CLOSED : ℕ := 1
def READ_CORRUPT : ℕ := 2

end error_code

/-! ### Helper lemmas -/

theorem u32_roundtrip (n : ℕ) (h : n < 4294967296) :
    u32_from_le_bytes (u32_to_le_bytes n) = n := by
  show n % 256 + 256 * (n / 256 % 256) + 65536 * (n / 65536 % 256) +
    16777216 * (n / 16777216 % 256) = n
  omega

theorem u32_to_le_bytes_length (n : ℕ) : (u32_to_le_bytes n).length = 4 := rfl

theorem backoff_run_bounds (us : List ℚ) (b : Backoff)
    (h0 : 0 ≤ b.bmin) (hle : b.bmin ≤ b.bmax)
    (hlo : b.bmin ≤ b.current_delay) (hhi : b.current_delay ≤ b.bmax)
    (hus : ∀ u ∈ us, 0 ≤ u) :
    (∀ d ∈ (b.run us).1, b.bmin ≤ d ∧ d ≤ b.bmax) ∧
      List.Chain' (· ≤ ·) (b.current_delay :: (b.run us).1) := by
  induction us generalizing b with
  | nil => simp [Backoff.run]
  | cons u rest ih =>
    have hu : 0 ≤ u := hus u (by simp)
    have hc : 0 ≤ b.current_delay := le_trans h0 hlo
    have hprod : 0 ≤ b.current_delay * (2 * u) := by positivity
    have hmono : b.current_delay ≤ (b.next u).1 := le_min (by linarith) hhi
    have hmax : (b.next u).1 ≤ b.bmax := min_le_right _ _
    have hlo' : b.bmin ≤ (b.next u).1 := le_trans hlo hmono
    have hmin2 : (b.next u).2.bmin = b.bmin := rfl
    have hmax2 : (b.next u).2.bmax = b.bmax := rfl
    have hcur2 : (b.next u).2.current_delay = (b.next u).1 := rfl
    have ihr := ih (b.next u).2 (by rw [hmin2]; exact h0)
      (by rw [hmin2, hmax2]; exact hle) (by rw [hmin2, hcur2]; exact hlo')
      (by rw [hmax2, hcur2]; exact hmax)
      (fun v hv => hus v (List.mem_cons_of_mem _ hv))
    simp only [Backoff.run]
    refine ⟨?_, ?_⟩
    · intro d hd
      rcases List.mem_cons.mp hd with rfl | hd
      · exact ⟨hlo', hmax⟩
      · have h2 := ihr.1 d hd
        rw [hmin2, hmax2] at h2
        exact h2
    · rw [List.chain'_cons]
      refine ⟨hmono, ?_⟩
      have h2 := ihr.2
      rw [hcur2] at h2
      exact h2

/-- C1: for a `Backoff` with `0 ≤ min_delay ≤ max_delay`, every delay returned
by a run of `next()` calls lies in `[min_delay, max_delay]`; each returned
delay equals `min(max_delay, delay + delay * 2 * U)` for the sampled
`U ∈ [0,1)`; `reset()` restores the stored delay to `min_delay`; and the
sequence of returned delays is non-decreasing. -/
theorem backoff_correct (mn mx : ℚ) (us : List ℚ)
    (h0 : 0 ≤ mn) (hle : mn ≤ mx) (hus : ∀ u ∈ us, 0 ≤ u ∧ u < 1) :
    (∀ d ∈ ((Backoff.new mn mx).run us).1, mn ≤ d ∧ d ≤ mx) ∧
      List.Chain' (· ≤ ·) ((Backoff.new mn mx).run us).1 ∧
      (∀ (b : Backoff) (u : ℚ),
        (b.next u).1 = min b.bmax (b.current_delay + b.current_delay * (2 * u))) ∧
      (∀ b : Backoff, b.reset.current_delay = b.bmin) := by
  have h := backoff_run_bounds us (Backoff.new mn mx) h0 hle le_rfl hle
    (fun u hu => (hus u hu).1)
  exact ⟨h.1, (List.chain'_cons'.mp h.2).2,
    fun b u => min_comm _ _, fun b => rfl⟩

theorem backoff_correct_witness :
    (∀ d ∈ ((Backoff.new 1 10).run [1/2, 0, 3/4]).1, (1:ℚ) ≤ d ∧ d ≤ 10) ∧
      List.Chain' (· ≤ ·) ((Backoff.new 1 10).run [1/2, 0, 3/4]).1 ∧
      (∀ (b : Backoff) (u : ℚ),
        (b.next u).1 = min b.bmax (b.current_delay + b.current_delay * (2 * u))) ∧
      (∀ b : Backoff, b.reset.current_delay = b.bmin) :=
  backoff_correct 1 10 [1/2, 0, 3/4] (by norm_num) (by norm_num)
    (by intro u hu; fin_cases hu <;> norm_num)

/-- C2: decoding the frame produced by encoding an opcode and a payload whose
length fits in a `u32` yields exactly the original opcode and payload. -/
theorem frame_roundtrip (opcode : ℕ) (payload : List ℕ)
    (hop : opcode < 4294967296) (hlen : payload.length < 4294967296) :
    decode_frame (encode_frame opcode payload) = some (opcode, payload) := by
  have h4 : (u32_to_le_bytes opcode).length = 4 := rfl
  have h4' : (u32_to_le_bytes payload.length).length = 4 := rfl
  have hheader :
      (encode_frame opcode payload).take 8 =
        u32_to_le_bytes opcode ++ u32_to_le_bytes payload.length := by
    simp [encode_frame, List.take_append_eq_append_take, h4, h4', List.take_of_length_le]
  have hdrop : (encode_frame opcode payload).drop 8 = payload := by
    simp [encode_frame, List.drop_append_eq_append_drop, h4, h4']
  have hlen8 : 8 ≤ (encode_frame opcode payload).length := by
    simp [encode_frame, h4, h4']
    omega
  have htake : (u32_to_le_bytes opcode ++ u32_to_le_bytes payload.length).take 4 =
      u32_to_le_bytes opcode := by
    simp [List.take_append_eq_append_take, h4, List.take_of_length_le]
  have hdrop4 : (u32_to_le_bytes opcode ++ u32_to_le_bytes payload.length).drop 4 =
      u32_to_le_bytes payload.length := by
    simp [List.drop_append_eq_append_drop, h4]
  simp [decode_frame, hlen8, hheader, hdrop, htake, hdrop4,
    u32_roundtrip opcode hop, u32_roundtrip payload.length hlen]

theorem frame_roundtrip_witness :
    decode_frame (encode_frame 1 [104, 105, 256]) = some (1, [104, 105, 256]) :=
  frame_roundtrip 1 [104, 105, 256] (by norm_num) (by norm_num)

/-! ## Connection (src/connection.rs)

The platform `BaseConnection` (src/connection/unix.rs, windows.rs) is an
external collaborator: a non-blocking duplex byte stream. It is modelled by
the bytes currently available to read, what a read past their end reports
(would-block versus a hard I/O error), the log of bytes written so far, and
whether writes fail. `serde_json` is likewise external; (de)serializers enter
as function parameters. -/

structure StreamError where
  message : String
  code : ℕ
deriving DecidableEq

structure User where
  id : String
  username : String
  discriminator : String
  avatar : Option String
deriving DecidableEq

structure HandshakeReplyData where
  user : Option User
deriving DecidableEq

structure HandshakeReply where
  command : String
  event : String
  data : HandshakeReplyData
deriving DecidableEq

inductive EndKind where
  | wouldBlock
  | closed
deriving DecidableEq

inductive IoErrKind where
  | wouldBlock
  | other
deriving DecidableEq

structure BaseConnection where
  data : List ℕ
  endKind : EndKind
  written : List ℕ
  writeFails : Bool
deriving DecidableEq

/-- `read_exact`: succeeds iff `n` bytes are available, consuming them;
otherwise reports would-block or a hard error according to how the available
data ends. -/
def BaseConnection.read_exact (t : BaseConnection) (n : ℕ) :
    Except IoErrKind (List ℕ × BaseConnection) :=
  if n ≤ t.data.length then .ok (t.data.take n, { t with data := t.data.drop n })
  else .error (match t.endKind with
    | EndKind.wouldBlock => IoErrKind.wouldBlock
    | EndKind.closed => IoErrKind.other)

/-- `write_all`: appends to the written log, or fails without writing. -/
def BaseConnection.write_all (t : BaseConnection) (bytes : List ℕ) :
    Except IoErrKind BaseConnection :=
  if t.writeFails then .error IoErrKind.other
  else .ok { t with written := t.written ++ bytes }

inductive RawWriteError where
  | ioErr
  | disconnected
deriving DecidableEq

inductive JsonReadError where
  | json
  | ioErr
  | stream (err : Option StreamError)
  | disconnected
deriving DecidableEq

/-- `write_raw_message` (src/connection.rs lines 69-82): writes the LE opcode,
the LE payload length, then the payload. -/
def write_raw_message (connection : BaseConnection) (opcode : ℕ)
    (message : List ℕ) : Except RawWriteError BaseConnection :=
  match connection.write_all (u32_to_le_bytes opcode) with
  | .error _ => .error .ioErr
  | .ok t1 =>
    match t1.write_all (u32_to_le_bytes message.length) with
    | .error _ => .error .ioErr
    | .ok t2 =>
      match t2.write_all message with
      | .error _ => .error .ioErr
      | .ok t3 => .ok t3

/-- Observable effects of the `on_connect` / `on_disconnect` callbacks. -/
inductive Notif where
  | connect (user : Option User)
  | disconnect (err : Option StreamError)
deriving DecidableEq

structure Connection where
  connection : Option BaseConnection
  is_connected : Bool
  has_on_connect : Bool
  has_on_disconnect : Bool
  app_id : String
deriving DecidableEq

def Connection.new (app_id : String) : Connection :=
  { connection := none, is_connected := false, has_on_connect := false,
    has_on_disconnect := false, app_id := app_id }

/-- `close_with_error` (src/connection.rs lines 137-143): drops the transport,
clears the connected flag, and invokes the disconnect notification (when one
is installed) with the given error. -/
def Connection.close_with_error (c : Connection) (error : Option StreamError) :
    Connection × List Notif :=
  ({ c with connection := none, is_connected := false },
    if c.has_on_disconnect then [Notif.disconnect error] else [])

/-- The opcode dispatch of `Connection::read_json` (src/connection.rs lines
186-216) on one decoded frame: either the loop finishes with a result and an
updated `Connection` (`.inl`), or it continues with the updated transport
(`.inr`, the PING/PONG arms). `parse` deserializes a FRAME payload as
`Option T` (`none` = JSON error); `parseSE` deserializes a CLOSE payload as
`StreamError` (`.ok()` in the source, `Option` here). -/
def read_json_dispatch {T : Type} (parse : List ℕ → Option (Option T))
    (parseSE : List ℕ → Option StreamError) (c : Connection) (opc : ℕ)
    (message : List ℕ) (t : BaseConnection) :
    (Except JsonReadError (Option T) × Connection × List Notif) ⊕ BaseConnection :=
  if opc = opcode.CLOSE then
    let error := parseSE message
    let s := c.close_with_error error
    .inl (.error (.stream error), s.1, s.2)
  else if opc = opcode.FRAME then
    match parse message with
    | some v => .inl (.ok v, { c with connection := some t }, [])
    | none => .inl (.error .json, { c with connection := some t }, [])
  else if opc = opcode.PING then
    match write_raw_message t opcode.PONG [] with
    | .error _ =>
      let s := c.close_with_error none
      .inl (.error .ioErr, s.1, s.2)
    | .ok t3 => .inr t3
  else if opc = opcode.PONG then
    .inr t
  else
    let error : StreamError :=
      { message := "Bad frame", code := error_code.READ_CORRUPT }
    let s := c.close_with_error (some error)
    .inl (.error (.stream (some error)), s.1, s.2)

theorem read_exact_ok_spec {t : BaseConnection} {n : ℕ} {bs : List ℕ}
    {t' : BaseConnection} (h : t.read_exact n = .ok (bs, t')) :
    bs = t.data.take n ∧ t' = { t with data := t.data.drop n } ∧
      n ≤ t.data.length := by
  rw [BaseConnection.read_exact] at h
  split at h
  · cases h
    exact ⟨rfl, rfl, by assumption⟩
  · cases h

theorem write_all_ok_data {t : BaseConnection} {bs : List ℕ}
    {t' : BaseConnection} (h : t.write_all bs = .ok t') : t'.data = t.data := by
  rw [BaseConnection.write_all] at h
  split at h
  · cases h
  · cases h
    rfl

theorem write_raw_message_ok_data {t : BaseConnection} {opc : ℕ}
    {msg : List ℕ} {t' : BaseConnection}
    (h : write_raw_message t opc msg = .ok t') : t'.data = t.data := by
  rw [write_raw_message] at h
  split at h
  · cases h
  · rename_i t1 h1
    split at h
    · cases h
    · rename_i t2 h2
      split at h
      · cases h
      · rename_i t3 h3
        cases h
        rw [write_all_ok_data h3, write_all_ok_data h2, write_all_ok_data h1]

theorem dispatch_inr_data {T : Type} {parse : List ℕ → Option (Option T)}
    {parseSE : List ℕ → Option StreamError} {c : Connection} {opc : ℕ}
    {message : List ℕ} {t t' : BaseConnection}
    (h : read_json_dispatch parse parseSE c opc message t = .inr t') :
    t'.data = t.data := by
  rw [read_json_dispatch] at h
  split at h
  · cases h
  split at h
  · split at h <;> cases h
  split at h
  · split at h
    · cases h
    · rename_i t3 h3
      cases h
      exact write_raw_message_ok_data h3
  split at h
  · cases h
    rfl
  · cases h

/-- The frame-reading loop of `Connection::read_json` (src/connection.rs
lines 154-217): read an 8-byte header; would-block means "no data yet", any
other header-read failure is a fatal `PipeClosed`; then read exactly `len`
payload bytes (a failure is a fatal `ReadCorrupt`); then dispatch on the
opcode, looping after PING/PONG. -/
def read_json_go {T : Type} (parse : List ℕ → Option (Option T))
    (parseSE : List ℕ → Option StreamError) (c : Connection)
    (t : BaseConnection) :
    Except JsonReadError (Option T) × Connection × List Notif :=
  match h8 : t.read_exact 8 with
  | .error IoErrKind.wouldBlock => (.ok none, { c with connection := some t }, [])
  | .error IoErrKind.other =>
    let error : StreamError :=
      { message := "Pipe closed", code := error_code.PIPE_CLOSED }
    let s := c.close_with_error (some error)
    (.error (.stream (some error)), s.1, s.2)
  | .ok (header, t1) =>
    let opc := u32_from_le_bytes (header.take 4)
    let len := u32_from_le_bytes (header.drop 4)
    if len ≠ 0 then
      match hp : t1.read_exact len with
      | .error _ =>
        let error : StreamError :=
          { message := "Partial data in frame", code := error_code.READ_CORRUPT }
        let s := c.close_with_error (some error)
        (.error (.stream (some error)), s.1, s.2)
      | .ok (message, t2) =>
        match hd : read_json_dispatch parse parseSE c opc message t2 with
        | .inl r => r
        | .inr t3 => read_json_go parse parseSE c t3
    else
      match hd : read_json_dispatch parse parseSE c opc [] t1 with
      | .inl r => r
      | .inr t3 => read_json_go parse parseSE c t3
termination_by t.data.length
decreasing_by
  · obtain ⟨-, ht1, hle1⟩ := read_exact_ok_spec h8
    obtain ⟨-, ht2, hle2⟩ := read_exact_ok_spec hp
    have h3 := dispatch_inr_data hd
    subst ht1
    subst ht2
    simp only [List.length_drop] at h3 hle2 ⊢
    rw [h3]
    simp only [List.length_drop]
    omega
  · obtain ⟨-, ht1, hle1⟩ := read_exact_ok_spec h8
    have h3 := dispatch_inr_data hd
    subst ht1
    rw [h3]
    simp only [List.length_drop]
    omega

/-- `Connection::read_json` (src/connection.rs lines 149-218). -/
def Connection.read_json {T : Type} (parse : List ℕ → Option (Option T))
    (parseSE : List ℕ → Option StreamError) (c : Connection) :
    Except JsonReadError (Option T) × Connection × List Notif :=
  match c.connection with
  | none => (.error .disconnected, c, [])
  | some t => read_json_go parse parseSE c t

inductive OpenError where
  | stream
  | handshakeSend
  | handshakeReceive (e : JsonReadError)
  | invalidHandshake (reply : HandshakeReply)
deriving DecidableEq

/-- `Connection::open` (src/connection.rs lines 104-135). `parseHR` is the
`serde_json` deserializer for `HandshakeReply`; `acquire` is the result of
`BaseConnection::open()` (external transport acquisition); `handshakeBytes`
is the serialization of the `Handshake { v: 1, client_id }` request. -/
def Connection.open (parseHR : List ℕ → Option (Option HandshakeReply))
    (parseSE : List ℕ → Option StreamError)
    (acquire : Except Unit BaseConnection) (handshakeBytes : List ℕ)
    (c : Connection) : Except OpenError Unit × Connection × List Notif :=
  match c.connection with
  | some _ =>
    if c.is_connected then (.ok (), c, [])
    else
      match c.read_json parseHR parseSE with
      | (.error e, c', ns) => (.error (.handshakeReceive e), c', ns)
      | (.ok none, c', ns) => (.ok (), c', ns)
      | (.ok (some handshake), c', ns) =>
        if handshake.command ≠ "DISPATCH" ∨ handshake.event ≠ "READY" then
          (.error (.invalidHandshake handshake), c', ns)
        else
          (.ok (), { c' with is_connected := true },
            ns ++ if c'.has_on_connect then [Notif.connect handshake.data.user] else [])
  | none =>
    match acquire with
    | .error _ => (.error .stream, c, [])
    | .ok conn =>
      match write_raw_message conn opcode.HANDSHAKE handshakeBytes with
      | .error _ => (.error .handshakeSend, c, [])
      | .ok conn' => (.ok (), { c with connection := some conn' }, [])

/-- `Connection::write_raw` (src/connection.rs lines 220-226): writes one
FRAME-opcode frame if a transport is present, else fails `Disconnected`. -/
def Connection.write_raw (c : Connection) (message : List ℕ) :
    Except RawWriteError Unit × Connection :=
  match c.connection with
  | some conn =>
    match write_raw_message conn opcode.FRAME message with
    | .ok conn' => (.ok (), { c with connection := some conn' })
    | .error e => (.error e, c)
  | none => (.error .disconnected, c)

/-! ## Session layer (src/lib.rs)

The pieces of `Rpc` / `run_io_thread` that the verified properties refer to:
the wrapping nonce counter, the shared presence slot, the subscription diff
in `modify_handlers`, and the two connection-lifecycle callbacks installed by
`run_io_thread`. `Instant` values and random samples are explicit inputs. -/

inductive Event where
  | connected (user : Option User)
  | disconnected (err : Option StreamError)
  | gotError (err : StreamError)
  | gameJoined (secret : String)
  | startedSpectating (secret : String)
  | joinRequested (user : User)
deriving DecidableEq

/-- `i32` wrapping addition on mathematical integers. -/
def i32_wrapping_add (a b : ℤ) : ℤ :=
  (a + b + 2147483648) % 4294967296 - 2147483648

structure Nonce where
  val : ℤ
deriving DecidableEq

/-- `Nonce::next` (src/lib.rs lines 51-55): returns the current value and
increments with `i32` wrap-around. -/
def Nonce.next (n : Nonce) : ℤ × Nonce :=
  (n.val, { val := i32_wrapping_add n.val 1 })

structure ReconnectionTime where
  backoff : Backoff
  next_time : ℚ
deriving DecidableEq

/-- `ReconnectionTime::calc_next` (src/lib.rs lines 231-234): one `next()`
call on the backoff, then `next_time = now + delay`. -/
def ReconnectionTime.calc_next (r : ReconnectionTime) (u now : ℚ) :
    ReconnectionTime :=
  let s := r.backoff.next u
  { backoff := s.2, next_time := now + s.1 }

/-- The two lifecycle callbacks `run_io_thread` installs on the `Connection`
(src/lib.rs lines 246-262): on connect, enqueue a `Connected` event and reset
the backoff; on disconnect, enqueue a `Disconnected` event carrying the error
and advance the reconnection time (one backoff `next()` call). -/
def run_notif (n : Notif) (events : List Event) (r : ReconnectionTime)
    (u now : ℚ) : List Event × ReconnectionTime :=
  match n with
  | .connect user =>
    (events ++ [Event.connected user], { r with backoff := r.backoff.reset })
  | .disconnect err =>
    (events ++ [Event.disconnected err], r.calc_next u now)

def run_notifs (ns : List Notif) (events : List Event) (r : ReconnectionTime)
    (u now : ℚ) : List Event × ReconnectionTime :=
  ns.foldl (fun acc n => run_notif n acc.1 acc.2 u now) (events, r)

structure SharedState where
  presence : List ℕ
  presence_updated : Bool
  is_connected : Bool
  stopped : Bool
deriving DecidableEq

/-- `Rpc::update_presence` (src/lib.rs lines 153-170): locks the shared
presence buffer, clears it, serializes `SetActivity { pid, nonce, presence }`
into it, and sets the dirty flag. `ser` is the `serde_json` serializer for
`SetActivity`, over an abstract presence type `P`. -/
def update_presence {P : Type} (ser : ℕ → ℤ → Option P → List ℕ) (pid : ℕ)
    (st : SharedState) (nonce : Nonce) (presence : Option P) :
    SharedState × Nonce :=
  let s := nonce.next
  ({ st with presence := ser pid s.1 presence, presence_updated := true }, s.2)

/-- The presence-consumption step of `run_io_thread` (src/lib.rs lines
308-314): if the dirty flag is set, atomically clear it and write the shared
presence buffer verbatim as one frame (the write result is ignored). -/
def presence_flush (c : Connection) (st : SharedState) :
    Connection × SharedState :=
  if st.presence_updated then
    let s := c.write_raw st.presence
    (s.2, { st with presence_updated := false })
  else (c, st)

/-- Handler slots of `EventHandlers` (src/lib.rs lines 38-46), tracked by
presence (`is_some()`), which is all `modify_handlers` inspects. -/
structure EventHandlers where
  connect : Bool
  disconnect : Bool
  error : Bool
  join_game : Bool
  spectate_game : Bool
  join_request : Bool
deriving DecidableEq

inductive SubCmd where
  | subscribe (nonce : ℤ) (event : String)
  | unsubscribe (nonce : ℤ) (event : String)
deriving DecidableEq

/-- `Rpc::toggle_event_subscription` (src/lib.rs lines 117-120): allocates a
nonce and enqueues a SUBSCRIBE or UNSUBSCRIBE command. -/
def toggle_event_subscription (enabled : Bool) (event : String)
    (nonce : Nonce) (queue : List SubCmd) : Nonce × List SubCmd :=
  let s := nonce.next
  (s.2, queue ++ [if enabled then SubCmd.subscribe s.1 event
                  else SubCmd.unsubscribe s.1 event])

/-- One expansion of the `toggle_event_subscription!` macro in
`modify_handlers` (src/lib.rs lines 127-135). -/
def toggle_step (prev new : Bool) (event : String) (nonce : Nonce)
    (queue : List SubCmd) : Nonce × List SubCmd :=
  match prev, new with
  | false, true => toggle_event_subscription true event nonce queue
  | true, false => toggle_event_subscription false event nonce queue
  | _, _ => (nonce, queue)

/-- `Rpc::modify_handlers` (src/lib.rs lines 122-151): snapshot the presence
of the three togglable handler slots, run the caller's mutation `f`, then
emit subscription traffic only for slots whose presence changed. Returns the
new handlers, the new nonce counter, and the enqueued commands. -/
def modify_handlers (h : EventHandlers) (nonce : Nonce)
    (f : EventHandlers → EventHandlers) :
    EventHandlers × Nonce × List SubCmd :=
  let had_join_game := h.join_game
  let had_spectate_game := h.spectate_game
  let had_join_request := h.join_request
  let h' := f h
  let s1 := toggle_step had_join_game h'.join_game "ACTIVITY_JOIN" nonce []
  let s2 := toggle_step had_spectate_game h'.spectate_game "ACTIVITY_SPECTATE"
    s1.1 s1.2
  let s3 := toggle_step had_join_request h'.join_request "ACTIVITY_JOIN_REQUEST"
    s2.1 s2.2
  (h', s3.1, s3.2)

/-! ## Step lemmas for the reading loop -/

theorem read_exact_prefix (t : BaseConnection) (n : ℕ) (pre rest : List ℕ)
    (hdata : t.data = pre ++ rest) (hlen : pre.length = n) :
    t.read_exact n = .ok (pre, { t with data := rest }) := by
  subst hlen
  rw [BaseConnection.read_exact, hdata, if_pos (by simp)]
  rw [List.take_left, List.drop_left]

theorem read_exact_err (t : BaseConnection) (n : ℕ) (h : t.data.length < n) :
    t.read_exact n = .error (match t.endKind with
      | EndKind.wouldBlock => IoErrKind.wouldBlock
      | EndKind.closed => IoErrKind.other) := by
  rw [BaseConnection.read_exact, if_neg (by omega)]

theorem header_take (op n : ℕ) :
    (u32_to_le_bytes op ++ u32_to_le_bytes n).take 4 = u32_to_le_bytes op := by
  simp [u32_to_le_bytes]

theorem header_drop (op n : ℕ) :
    (u32_to_le_bytes op ++ u32_to_le_bytes n).drop 4 = u32_to_le_bytes n := by
  simp [u32_to_le_bytes]

theorem write_raw_message_ok (t : BaseConnection) (opc : ℕ) (msg : List ℕ)
    (h : t.writeFails = false) :
    write_raw_message t opc msg =
      .ok { t with written := t.written ++ encode_frame opc msg } := by
  simp [write_raw_message, BaseConnection.write_all, h, encode_frame,
    List.append_assoc]

theorem write_raw_message_fail (t : BaseConnection) (opc : ℕ) (msg : List ℕ)
    (h : t.writeFails = true) :
    write_raw_message t opc msg = .error .ioErr := by
  simp [write_raw_message, BaseConnection.write_all, h]

/-- A would-block header read: "no data yet", nothing changes. -/
theorem read_json_go_no_data {T : Type} (parse : List ℕ → Option (Option T))
    (parseSE : List ℕ → Option StreamError) (c : Connection)
    (t : BaseConnection) (hlen : t.data.length < 8)
    (he : t.endKind = EndKind.wouldBlock) :
    read_json_go parse parseSE c t =
      (.ok none, { c with connection := some t }, []) := by
  have herr : t.read_exact 8 = .error IoErrKind.wouldBlock := by
    rw [read_exact_err t 8 hlen, he]
  rw [read_json_go]
  split
  · rfl
  · rename_i heq
    rw [herr] at heq
    cases heq
  · rename_i heq
    rw [herr] at heq
    cases heq

/-- A complete frame at the head of the stream: the loop consumes it and
dispatches on its opcode. -/
theorem read_json_go_frame {T : Type} (parse : List ℕ → Option (Option T))
    (parseSE : List ℕ → Option StreamError) (c : Connection)
    (t : BaseConnection) (op : ℕ) (p rest : List ℕ)
    (hdata : t.data = encode_frame op p ++ rest)
    (hop : op < 4294967296) (hplen : p.length < 4294967296) :
    read_json_go parse parseSE c t =
      match read_json_dispatch parse parseSE c op p { t with data := rest } with
      | .inl r => r
      | .inr t3 => read_json_go parse parseSE c t3 := by
  have hheader : t.read_exact 8 =
      .ok (u32_to_le_bytes op ++ u32_to_le_bytes p.length,
           { t with data := p ++ rest }) := by
    apply read_exact_prefix
    · rw [hdata, encode_frame]
      simp [List.append_assoc]
    · rfl
  rw [read_json_go]
  split
  · rename_i heq
    rw [hheader] at heq
    cases heq
  · rename_i heq
    rw [hheader] at heq
    cases heq
  · rename_i header t1 heq
    rw [hheader] at heq
    simp only [Except.ok.injEq, Prod.mk.injEq] at heq
    obtain ⟨h1, h2⟩ := heq
    subst h1
    subst h2
    simp only [header_take, header_drop, u32_roundtrip op hop,
      u32_roundtrip p.length hplen]
    by_cases h0 : p.length = 0
    · rw [if_neg (by omega)]
      have hp0 : p = [] := List.length_eq_zero.mp h0
      subst hp0
      simp only [List.nil_append]
      split
      · rename_i r heq2
        simp only [header_take, u32_roundtrip op hop] at heq2
        rw [heq2]
      · rename_i t3 heq2
        simp only [header_take, u32_roundtrip op hop] at heq2
        rw [heq2]
    · rw [if_pos h0]
      have hpayload : ({ t with data := p ++ rest } : BaseConnection).read_exact
          p.length = .ok (p, { t with data := rest }) :=
        read_exact_prefix _ _ p rest rfl rfl
      split
      · rename_i heq2
        simp only [header_drop, u32_roundtrip p.length hplen] at heq2
        rw [hpayload] at heq2
        cases heq2
      · rename_i message t2 heq2
        simp only [header_drop, u32_roundtrip p.length hplen] at heq2
        rw [hpayload] at heq2
        simp only [Except.ok.injEq, Prod.mk.injEq] at heq2
        obtain ⟨h3, h4⟩ := heq2
        subst h3
        subst h4
        split
        · rename_i r heq3
          simp only [header_take, u32_roundtrip op hop] at heq3
          rw [heq3]
        · rename_i t3 heq3
          simp only [header_take, u32_roundtrip op hop] at heq3
          rw [heq3]

/-- A frame header declaring a nonzero length followed by too few payload
bytes: fatal `ReadCorrupt`, connection torn down. -/
theorem read_json_go_short_payload {T : Type}
    (parse : List ℕ → Option (Option T))
    (parseSE : List ℕ → Option StreamError) (c : Connection)
    (t : BaseConnection) (op len : ℕ) (piece : List ℕ)
    (hdata : t.data = u32_to_le_bytes op ++ u32_to_le_bytes len ++ piece)
    (hop : op < 4294967296) (hlen : len < 4294967296)
    (hnz : len ≠ 0) (hshort : piece.length < len) :
    read_json_go parse parseSE c t =
      (.error (.stream (some { message := "Partial data in frame",
                               code := error_code.READ_CORRUPT })),
       { c with connection := none, is_connected := false },
       if c.has_on_disconnect then
         [Notif.disconnect (some { message := "Partial data in frame",
                                   code := error_code.READ_CORRUPT })]
       else []) := by
  have hheader : t.read_exact 8 =
      .ok (u32_to_le_bytes op ++ u32_to_le_bytes len,
           { t with data := piece }) := by
    apply read_exact_prefix
    · rw [hdata]
    · rfl
  rw [read_json_go]
  split
  · rename_i heq
    rw [hheader] at heq
    cases heq
  · rename_i heq
    rw [hheader] at heq
    cases heq
  · rename_i header t1 heq
    rw [hheader] at heq
    simp only [Except.ok.injEq, Prod.mk.injEq] at heq
    obtain ⟨h1, h2⟩ := heq
    subst h1
    subst h2
    simp only [header_take, header_drop, u32_roundtrip op hop,
      u32_roundtrip len hlen]
    rw [if_pos hnz]
    have hfail : ({ t with data := piece } : BaseConnection).read_exact len =
        .error (match t.endKind with
          | EndKind.wouldBlock => IoErrKind.wouldBlock
          | EndKind.closed => IoErrKind.other) :=
      read_exact_err _ _ (by simpa using hshort)
    split
    · simp [Connection.close_with_error]
    · rename_i message t2 heq2
      simp only [header_drop, u32_roundtrip len hlen] at heq2
      rw [hfail] at heq2
      cases heq2

/-! ## Dispatch computations per opcode -/

theorem dispatch_close {T : Type} (parse : List ℕ → Option (Option T))
    (parseSE : List ℕ → Option StreamError) (c : Connection) (p : List ℕ)
    (t : BaseConnection) :
    read_json_dispatch parse parseSE c opcode.CLOSE p t =
      .inl (.error (.stream (parseSE p)),
        { c with connection := none, is_connected := false },
        if c.has_on_disconnect then [Notif.disconnect (parseSE p)] else []) := by
  simp [read_json_dispatch, opcode.CLOSE, Connection.close_with_error]

theorem dispatch_frame_parsed {T : Type} (parse : List ℕ → Option (Option T))
    (parseSE : List ℕ → Option StreamError) (c : Connection) (p : List ℕ)
    (t : BaseConnection) (v : Option T) (h : parse p = some v) :
    read_json_dispatch parse parseSE c opcode.FRAME p t =
      .inl (.ok v, { c with connection := some t }, []) := by
  simp [read_json_dispatch, opcode.CLOSE, opcode.FRAME, h]

theorem dispatch_ping_ok {T : Type} (parse : List ℕ → Option (Option T))
    (parseSE : List ℕ → Option StreamError) (c : Connection) (p : List ℕ)
    (t : BaseConnection) (h : t.writeFails = false) :
    read_json_dispatch parse parseSE c opcode.PING p t =
      .inr { t with written := t.written ++ encode_frame opcode.PONG [] } := by
  simp [read_json_dispatch, opcode.CLOSE, opcode.FRAME, opcode.PING,
    write_raw_message_ok t opcode.PONG [] h]

theorem dispatch_ping_fail {T : Type} (parse : List ℕ → Option (Option T))
    (parseSE : List ℕ → Option StreamError) (c : Connection) (p : List ℕ)
    (t : BaseConnection) (h : t.writeFails = true) :
    read_json_dispatch parse parseSE c opcode.PING p t =
      .inl (.error .ioErr, { c with connection := none, is_connected := false },
        if c.has_on_disconnect then [Notif.disconnect none] else []) := by
  simp [read_json_dispatch, opcode.CLOSE, opcode.FRAME, opcode.PING,
    write_raw_message_fail t opcode.PONG [] h, Connection.close_with_error]

theorem dispatch_pong {T : Type} (parse : List ℕ → Option (Option T))
    (parseSE : List ℕ → Option StreamError) (c : Connection) (p : List ℕ)
    (t : BaseConnection) :
    read_json_dispatch parse parseSE c opcode.PONG p t = .inr t := by
  simp [read_json_dispatch, opcode.CLOSE, opcode.FRAME, opcode.PING, opcode.PONG]

/-! ## Handshake (claims about `Connection::open`) -/

theorem read_json_frame_parsed {T : Type} (parse : List ℕ → Option (Option T))
    (parseSE : List ℕ → Option StreamError) (c : Connection)
    (t : BaseConnection) (p rest : List ℕ) (v : Option T)
    (hconn : c.connection = some t)
    (hdata : t.data = encode_frame opcode.FRAME p ++ rest)
    (hplen : p.length < 4294967296) (hparse : parse p = some v) :
    Connection.read_json parse parseSE c =
      (.ok v, { c with connection := some { t with data := rest } }, []) := by
  simp only [Connection.read_json, hconn]
  rw [read_json_go_frame parse parseSE c t opcode.FRAME p rest hdata
    (by norm_num [opcode.FRAME]) hplen]
  rw [dispatch_frame_parsed parse parseSE c p _ v hparse]

theorem open_invalid_result (parseHR : List ℕ → Option (Option HandshakeReply))
    (parseSE : List ℕ → Option StreamError)
    (acquire : Except Unit BaseConnection) (hbytes : List ℕ)
    (c : Connection) (t : BaseConnection) (pl rest : List ℕ)
    (hs : HandshakeReply)
    (hconn : c.connection = some t) (hnotready : c.is_connected = false)
    (hdata : t.data = encode_frame opcode.FRAME pl ++ rest)
    (hpl : pl.length < 4294967296)
    (hparse : parseHR pl = some (some hs))
    (hbad : hs.command ≠ "DISPATCH" ∨ hs.event ≠ "READY") :
    Connection.open parseHR parseSE acquire hbytes c =
      (.error (.invalidHandshake hs),
       { c with connection := some { t with data := rest } }, []) := by
  have hread := read_json_frame_parsed parseHR parseSE c t pl rest (some hs)
    hconn hdata hpl hparse
  simp only [Connection.open, hconn, hnotready, hread, Bool.false_eq_true,
    if_false]
  rw [if_pos hbad]

/-- C3: when `open()` reads a handshake reply whose `cmd` differs from
"DISPATCH" or whose `evt` differs from "READY", it returns
`InvalidHandshake` carrying that reply, the connection does not transition
to Ready (`is_connected` stays false), and no connect notification fires
(the notification list is empty). -/
theorem open_invalid_handshake
    (parseHR : List ℕ → Option (Option HandshakeReply))
    (parseSE : List ℕ → Option StreamError)
    (acquire : Except Unit BaseConnection) (hbytes : List ℕ)
    (c : Connection) (t : BaseConnection) (pl rest : List ℕ)
    (hs : HandshakeReply)
    (hconn : c.connection = some t) (hnotready : c.is_connected = false)
    (hdata : t.data = encode_frame opcode.FRAME pl ++ rest)
    (hpl : pl.length < 4294967296)
    (hparse : parseHR pl = some (some hs))
    (hbad : hs.command ≠ "DISPATCH" ∨ hs.event ≠ "READY") :
    Connection.open parseHR parseSE acquire hbytes c =
      (.error (.invalidHandshake hs),
       { c with connection := some { t with data := rest } }, []) ∧
    ({ c with connection := some { t with data := rest } } :
      Connection).is_connected = false := by
  refine ⟨open_invalid_result parseHR parseSE acquire hbytes c t pl rest hs
    hconn hnotready hdata hpl hparse hbad, ?_⟩
  simpa using hnotready

/-- C10: when `open()` fails with `InvalidHandshake`, the transport is
retained, `is_connected` stays false, no disconnect notification fires, and
a later `open()` does not redo transport acquisition (its result does not
depend on the acquisition outcome). -/
theorem open_invalid_retains_transport
    (parseHR : List ℕ → Option (Option HandshakeReply))
    (parseSE : List ℕ → Option StreamError)
    (acquire : Except Unit BaseConnection) (hbytes : List ℕ)
    (c : Connection) (t : BaseConnection) (pl rest : List ℕ)
    (hs : HandshakeReply)
    (hconn : c.connection = some t) (hnotready : c.is_connected = false)
    (hdata : t.data = encode_frame opcode.FRAME pl ++ rest)
    (hpl : pl.length < 4294967296)
    (hparse : parseHR pl = some (some hs))
    (hbad : hs.command ≠ "DISPATCH" ∨ hs.event ≠ "READY") :
    Connection.open parseHR parseSE acquire hbytes c =
      (.error (.invalidHandshake hs),
       { c with connection := some { t with data := rest } }, []) ∧
    ({ c with connection := some { t with data := rest } } :
      Connection).connection = some { t with data := rest } ∧
    ({ c with connection := some { t with data := rest } } :
      Connection).is_connected = false ∧
    (∀ a1 a2 : Except Unit BaseConnection,
      Connection.open parseHR parseSE a1 hbytes
          { c with connection := some { t with data := rest } } =
        Connection.open parseHR parseSE a2 hbytes
          { c with connection := some { t with data := rest } }) := by
  refine ⟨open_invalid_result parseHR parseSE acquire hbytes c t pl rest hs
    hconn hnotready hdata hpl hparse hbad, rfl, by simpa using hnotready,
    fun a1 a2 => rfl⟩

/-! ## Frame fault isolation, PING/PONG, CLOSE -/

/-- C4: a would-block ("no data") header read returns the non-error no-data
outcome and leaves the connection state unchanged; a nonzero declared length
followed by a failed (short) payload read drops the transport, disconnects,
fires the disconnect notification, and returns a `ReadCorrupt` stream
error. -/
theorem read_json_fault_isolation {T : Type}
    (parse : List ℕ → Option (Option T))
    (parseSE : List ℕ → Option StreamError)
    (c : Connection) (t : BaseConnection)
    (hconn : c.connection = some t) (hlen : t.data.length < 8)
    (he : t.endKind = EndKind.wouldBlock)
    (c2 : Connection) (t2 : BaseConnection) (op len : ℕ) (piece : List ℕ)
    (hconn2 : c2.connection = some t2) (hdisc2 : c2.has_on_disconnect = true)
    (hdata2 : t2.data = u32_to_le_bytes op ++ u32_to_le_bytes len ++ piece)
    (hop : op < 4294967296) (hlen2 : len < 4294967296) (hnz : len ≠ 0)
    (hshort : piece.length < len) :
    Connection.read_json parse parseSE c = (.ok none, c, []) ∧
    Connection.read_json parse parseSE c2 =
      (.error (.stream (some { message := "Partial data in frame",
                               code := error_code.READ_CORRUPT })),
       { c2 with connection := none, is_connected := false },
       [Notif.disconnect (some { message := "Partial data in frame",
                                 code := error_code.READ_CORRUPT })]) := by
  constructor
  · simp only [Connection.read_json, hconn]
    rw [read_json_go_no_data parse parseSE c t hlen he, ← hconn]
  · simp only [Connection.read_json, hconn2]
    rw [read_json_go_short_payload parse parseSE c2 t2 op len piece hdata2
      hop hlen2 hnz hshort]
    rw [if_pos hdisc2]

/-- C5: a PING frame received while connected results in exactly one PONG
frame (empty payload) written to the transport, no value surfaced for it,
and reading continuing on the rest of the stream; a PONG frame is ignored
and reading continues; the PING path closes the connection only if the PONG
write itself fails with an I/O error. -/
theorem read_json_ping_pong {T : Type}
    (parse : List ℕ → Option (Option T))
    (parseSE : List ℕ → Option StreamError)
    (c : Connection) (t : BaseConnection) (p rest : List ℕ)
    (hconn : c.connection = some t) (hp : p.length < 4294967296)
    (hdata : t.data = encode_frame opcode.PING p ++ rest)
    (hwf : t.writeFails = false)
    (c2 : Connection) (t2 : BaseConnection) (q rest2 : List ℕ)
    (hconn2 : c2.connection = some t2) (hq : q.length < 4294967296)
    (hdata2 : t2.data = encode_frame opcode.PONG q ++ rest2)
    (c3 : Connection) (t3 : BaseConnection) (w rest3 : List ℕ)
    (hconn3 : c3.connection = some t3) (hw : w.length < 4294967296)
    (hdata3 : t3.data = encode_frame opcode.PING w ++ rest3)
    (hwf3 : t3.writeFails = true) (hdisc3 : c3.has_on_disconnect = true) :
    Connection.read_json parse parseSE c =
      read_json_go parse parseSE c
        { t with data := rest,
                 written := t.written ++ encode_frame opcode.PONG [] } ∧
    Connection.read_json parse parseSE c2 =
      read_json_go parse parseSE c2 { t2 with data := rest2 } ∧
    Connection.read_json parse parseSE c3 =
      (.error .ioErr, { c3 with connection := none, is_connected := false },
       [Notif.disconnect none]) := by
  refine ⟨?_, ?_, ?_⟩
  · simp only [Connection.read_json, hconn]
    rw [read_json_go_frame parse parseSE c t opcode.PING p rest hdata
      (by norm_num [opcode.PING]) hp]
    rw [dispatch_ping_ok parse parseSE c p { t with data := rest } hwf]
  · simp only [Connection.read_json, hconn2]
    rw [read_json_go_frame parse parseSE c2 t2 opcode.PONG q rest2 hdata2
      (by norm_num [opcode.PONG]) hq]
    rw [dispatch_pong parse parseSE c2 q _]
  · simp only [Connection.read_json, hconn3]
    rw [read_json_go_frame parse parseSE c3 t3 opcode.PING w rest3 hdata3
      (by norm_num [opcode.PING]) hw]
    rw [dispatch_ping_fail parse parseSE c3 w { t3 with data := rest3 } hwf3]
    rw [if_pos hdisc3]

/-- C6: a CLOSE frame whose payload parses as a `StreamError` tears the
connection down (transport dropped, `Disconnected`), fires the disconnect
notification exactly once with exactly that error, and `read_json` returns
that error; the session loop's disconnect callback then enqueues exactly one
`Disconnected` event carrying the error and invokes the backoff's `next()`
exactly once. -/
theorem read_json_close_frame {T : Type}
    (parse : List ℕ → Option (Option T))
    (parseSE : List ℕ → Option StreamError)
    (c : Connection) (t : BaseConnection) (p rest : List ℕ)
    (e : StreamError)
    (hconn : c.connection = some t) (hp : p.length < 4294967296)
    (hdata : t.data = encode_frame opcode.CLOSE p ++ rest)
    (hparse : parseSE p = some e) (hdisc : c.has_on_disconnect = true)
    (events : List Event) (r : ReconnectionTime) (u now : ℚ) :
    Connection.read_json parse parseSE c =
      (.error (.stream (some e)),
       { c with connection := none, is_connected := false },
       [Notif.disconnect (some e)]) ∧
    run_notifs [Notif.disconnect (some e)] events r u now =
      (events ++ [Event.disconnected (some e)],
       { backoff := (r.backoff.next u).2,
         next_time := now + (r.backoff.next u).1 }) := by
  constructor
  · simp only [Connection.read_json, hconn]
    rw [read_json_go_frame parse parseSE c t opcode.CLOSE p rest hdata
      (by norm_num [opcode.CLOSE]) hp]
    rw [dispatch_close parse parseSE c p _]
    rw [hparse, if_pos hdisc]
  · simp [run_notifs, run_notif, ReconnectionTime.calc_next]

/-! ## Presence coalescing -/

theorem update_presence_foldl {P : Type} (ser : ℕ → ℤ → Option P → List ℕ)
    (pid : ℕ) :
    ∀ (ps : List (Option P)) (hne : ps ≠ []) (st : SharedState) (n : Nonce),
      ∃ nv, (ps.foldl (fun acc p => update_presence ser pid acc.1 acc.2 p)
          (st, n)).1 =
        { st with presence := ser pid nv (ps.getLast hne),
                  presence_updated := true } := by
  intro ps
  induction ps with
  | nil => intro hne; exact absurd rfl hne
  | cons p rest ih =>
    intro hne st n
    cases rest with
    | nil =>
      refine ⟨n.val, ?_⟩
      simp [update_presence, Nonce.next, List.getLast]
    | cons q rest2 =>
      have hne2 : q :: rest2 ≠ [] := by simp
      obtain ⟨nv, hnv⟩ := ih hne2 (update_presence ser pid st n p).1
        (update_presence ser pid st n p).2
      refine ⟨nv, ?_⟩
      rw [List.foldl_cons, List.getLast_cons hne2]
      exact hnv

/-- C7: any burst of `update_presence` calls leaves the shared buffer holding
only the serialization of the last value (each call overwrites, never
appends), with the dirty flag set; the session loop's consumption step then
writes exactly one FRAME containing that buffer and clears the flag. -/
theorem presence_coalescing {P : Type} (ser : ℕ → ℤ → Option P → List ℕ)
    (pid : ℕ) (ps : List (Option P)) (st : SharedState) (n : Nonce)
    (hne : ps ≠ []) (c : Connection) (t : BaseConnection)
    (hconn : c.connection = some t) (hwf : t.writeFails = false) :
    ∃ nv,
      (ps.foldl (fun acc p => update_presence ser pid acc.1 acc.2 p)
          (st, n)).1 =
        { st with presence := ser pid nv (ps.getLast hne),
                  presence_updated := true } ∧
      presence_flush c { st with presence := ser pid nv (ps.getLast hne),
                                 presence_updated := true } =
        ({ c with
            connection := some { t with
              written := t.written ++ encode_frame opcode.FRAME
                  (ser pid nv (ps.getLast hne)) } },
         { st with presence := ser pid nv (ps.getLast hne),
                   presence_updated := false }) := by
  obtain ⟨nv, hnv⟩ := update_presence_foldl ser pid ps hne st n
  refine ⟨nv, hnv, ?_⟩
  simp [presence_flush, Connection.write_raw, hconn,
    write_raw_message_ok t opcode.FRAME (ser pid nv (ps.getLast hne)) hwf]

/-! ## write_raw and the transport guard -/

/-- C8 counterexample: a `Connection` that is not in the Ready state
(`is_connected = false`) but still holds a transport (awaiting the handshake
reply) does NOT fail `write_raw` with a disconnected error — it writes a
FRAME frame. This refutes the claim that `write_raw` fails for every
non-Ready connection. -/
theorem write_raw_not_ready_counterexample :
    (Connection.mk (some (BaseConnection.mk [] EndKind.wouldBlock [] false))
        false false false "app").is_connected = false ∧
    ((Connection.mk (some (BaseConnection.mk [] EndKind.wouldBlock [] false))
        false false false "app").write_raw [42]).1 = Except.ok () ∧
    ((Connection.mk (some (BaseConnection.mk [] EndKind.wouldBlock [] false))
        false false false "app").write_raw [42]).1 ≠
      Except.error RawWriteError.disconnected ∧
    ((Connection.mk (some (BaseConnection.mk [] EndKind.wouldBlock [] false))
        false false false "app").write_raw [42]).2.connection =
      some (BaseConnection.mk [] EndKind.wouldBlock
        (encode_frame opcode.FRAME [42]) false) := by
  refine ⟨rfl, rfl, fun hcontra => ?_, rfl⟩
  rw [show ((Connection.mk
      (some (BaseConnection.mk [] EndKind.wouldBlock [] false))
      false false false "app").write_raw [42]).1 = Except.ok () from rfl]
    at hcontra
  cases hcontra

/-- C8 amended: `write_raw` fails immediately with a disconnected error
exactly when the `Connection` holds no transport; whenever a transport is
present (Ready or still awaiting the handshake) and the write succeeds, it
writes exactly one FRAME-opcode frame containing the payload. -/
theorem write_raw_transport_guard
    (c1 : Connection) (msg1 : List ℕ) (h1 : c1.connection = none)
    (c2 : Connection) (t : BaseConnection) (msg2 : List ℕ)
    (hc2 : c2.connection = some t) (hwf : t.writeFails = false) :
    c1.write_raw msg1 = (.error .disconnected, c1) ∧
    c2.write_raw msg2 = (.ok (), { c2 with
      connection := some { t with
        written := t.written ++ encode_frame opcode.FRAME msg2 } }) := by
  constructor
  · simp [Connection.write_raw, h1]
  · simp [Connection.write_raw, hc2,
      write_raw_message_ok t opcode.FRAME msg2 hwf]

/-! ## Subscription diffing -/

theorem toggle_step_same (b : Bool) (e : String) (n : Nonce)
    (q : List SubCmd) : toggle_step b b e n q = (n, q) := by
  cases b <;> rfl

/-- C9: one `modify_handlers(f)` call enqueues a SUBSCRIBE (resp.
UNSUBSCRIBE) command for a togglable event exactly when that handler slot
was absent (resp. installed) before `f` and installed (resp. absent) after;
a mutation that nets out to no change (e.g. install-then-remove inside one
closure) enqueues no subscription traffic at all. -/
theorem modify_handlers_diff (h : EventHandlers) (nonce : Nonce)
    (f : EventHandlers → EventHandlers) :
    ((∃ n, SubCmd.subscribe n "ACTIVITY_JOIN" ∈
        (modify_handlers h nonce f).2.2) ↔
      (h.join_game = false ∧ (f h).join_game = true)) ∧
    ((∃ n, SubCmd.unsubscribe n "ACTIVITY_JOIN" ∈
        (modify_handlers h nonce f).2.2) ↔
      (h.join_game = true ∧ (f h).join_game = false)) ∧
    ((∃ n, SubCmd.subscribe n "ACTIVITY_SPECTATE" ∈
        (modify_handlers h nonce f).2.2) ↔
      (h.spectate_game = false ∧ (f h).spectate_game = true)) ∧
    ((∃ n, SubCmd.unsubscribe n "ACTIVITY_SPECTATE" ∈
        (modify_handlers h nonce f).2.2) ↔
      (h.spectate_game = true ∧ (f h).spectate_game = false)) ∧
    ((∃ n, SubCmd.subscribe n "ACTIVITY_JOIN_REQUEST" ∈
        (modify_handlers h nonce f).2.2) ↔
      (h.join_request = false ∧ (f h).join_request = true)) ∧
    ((∃ n, SubCmd.unsubscribe n "ACTIVITY_JOIN_REQUEST" ∈
        (modify_handlers h nonce f).2.2) ↔
      (h.join_request = true ∧ (f h).join_request = false)) ∧
    (f h = h → (modify_handlers h nonce f).2.2 = []) := by
  have hnet : f h = h → (modify_handlers h nonce f).2.2 = [] := by
    intro hfh
    simp [modify_handlers, hfh, toggle_step_same]
  refine ⟨?_, ?_, ?_, ?_, ?_, ?_, hnet⟩ <;>
  · cases hjg : h.join_game <;> cases hsg : h.spectate_game <;>
      cases hjr : h.join_request <;> cases hjg2 : (f h).join_game <;>
      cases hsg2 : (f h).spectate_game <;> cases hjr2 : (f h).join_request <;>
      simp [modify_handlers, toggle_step, toggle_event_subscription,
        Nonce.next, hjg, hsg, hjr, hjg2, hsg2, hjr2]

/-! ## Witnesses -/

theorem open_invalid_handshake_witness :
    Connection.open
        (fun _ => some (some (HandshakeReply.mk "FOO" "READY"
          (HandshakeReplyData.mk none))))
        (fun _ => none) (Except.error ()) []
        (Connection.mk (some (BaseConnection.mk
          (encode_frame opcode.FRAME [7] ++ []) EndKind.wouldBlock [] false))
          false true true "app") =
      (Except.error (OpenError.invalidHandshake (HandshakeReply.mk "FOO"
        "READY" (HandshakeReplyData.mk none))),
       Connection.mk (some (BaseConnection.mk [] EndKind.wouldBlock [] false))
         false true true "app", []) ∧
    (Connection.mk (some (BaseConnection.mk [] EndKind.wouldBlock [] false))
      false true true "app").is_connected = false :=
  open_invalid_handshake
    (fun _ => some (some (HandshakeReply.mk "FOO" "READY"
      (HandshakeReplyData.mk none))))
    (fun _ => none) (Except.error ()) []
    (Connection.mk (some (BaseConnection.mk
      (encode_frame opcode.FRAME [7] ++ []) EndKind.wouldBlock [] false))
      false true true "app")
    (BaseConnection.mk (encode_frame opcode.FRAME [7] ++ [])
      EndKind.wouldBlock [] false)
    [7] []
    (HandshakeReply.mk "FOO" "READY" (HandshakeReplyData.mk none))
    rfl rfl rfl (by decide) rfl (Or.inl (by decide))

theorem open_invalid_retains_transport_witness :
    Connection.open
        (fun _ => some (some (HandshakeReply.mk "DISPATCH" "NOPE"
          (HandshakeReplyData.mk none))))
        (fun _ => none) (Except.error ()) []
        (Connection.mk (some (BaseConnection.mk
          (encode_frame opcode.FRAME [3] ++ []) EndKind.wouldBlock [] false))
          false true true "app2") =
      (Except.error (OpenError.invalidHandshake (HandshakeReply.mk "DISPATCH"
        "NOPE" (HandshakeReplyData.mk none))),
       Connection.mk (some (BaseConnection.mk [] EndKind.wouldBlock [] false))
         false true true "app2", []) ∧
    (Connection.mk (some (BaseConnection.mk [] EndKind.wouldBlock [] false))
      false true true "app2").connection =
        some (BaseConnection.mk [] EndKind.wouldBlock [] false) ∧
    (Connection.mk (some (BaseConnection.mk [] EndKind.wouldBlock [] false))
      false true true "app2").is_connected = false ∧
    (∀ a1 a2 : Except Unit BaseConnection,
      Connection.open
          (fun _ => some (some (HandshakeReply.mk "DISPATCH" "NOPE"
            (HandshakeReplyData.mk none))))
          (fun _ => none) a1 []
          (Connection.mk (some (BaseConnection.mk [] EndKind.wouldBlock []
            false)) false true true "app2") =
        Connection.open
          (fun _ => some (some (HandshakeReply.mk "DISPATCH" "NOPE"
            (HandshakeReplyData.mk none))))
          (fun _ => none) a2 []
          (Connection.mk (some (BaseConnection.mk [] EndKind.wouldBlock []
            false)) false true true "app2")) :=
  open_invalid_retains_transport
    (fun _ => some (some (HandshakeReply.mk "DISPATCH" "NOPE"
      (HandshakeReplyData.mk none))))
    (fun _ => none) (Except.error ()) []
    (Connection.mk (some (BaseConnection.mk
      (encode_frame opcode.FRAME [3] ++ []) EndKind.wouldBlock [] false))
      false true true "app2")
    (BaseConnection.mk (encode_frame opcode.FRAME [3] ++ [])
      EndKind.wouldBlock [] false)
    [3] []
    (HandshakeReply.mk "DISPATCH" "NOPE" (HandshakeReplyData.mk none))
    rfl rfl rfl (by decide) rfl (Or.inr (by decide))

theorem read_json_fault_isolation_witness :
    Connection.read_json (T := ℕ) (fun _ => none) (fun _ => none)
      (Connection.mk (some (BaseConnection.mk [0, 1, 2] EndKind.wouldBlock
        [] false)) true true true "a") =
      (.ok none, Connection.mk (some (BaseConnection.mk [0, 1, 2]
        EndKind.wouldBlock [] false)) true true true "a", []) ∧
    Connection.read_json (T := ℕ) (fun _ => none) (fun _ => none)
      (Connection.mk (some (BaseConnection.mk
        (u32_to_le_bytes 1 ++ u32_to_le_bytes 5 ++ [9]) EndKind.wouldBlock
        [] false)) true true true "b") =
      (.error (.stream (some { message := "Partial data in frame",
                               code := error_code.READ_CORRUPT })),
       Connection.mk none false true true "b",
       [Notif.disconnect (some { message := "Partial data in frame",
                                 code := error_code.READ_CORRUPT })]) :=
  read_json_fault_isolation (fun _ => none) (fun _ => none)
    (Connection.mk (some (BaseConnection.mk [0, 1, 2] EndKind.wouldBlock
      [] false)) true true true "a")
    (BaseConnection.mk [0, 1, 2] EndKind.wouldBlock [] false)
    rfl (by decide) rfl
    (Connection.mk (some (BaseConnection.mk
      (u32_to_le_bytes 1 ++ u32_to_le_bytes 5 ++ [9]) EndKind.wouldBlock
      [] false)) true true true "b")
    (BaseConnection.mk (u32_to_le_bytes 1 ++ u32_to_le_bytes 5 ++ [9])
      EndKind.wouldBlock [] false)
    1 5 [9] rfl rfl rfl (by decide) (by decide) (by decide) (by decide)

theorem read_json_ping_pong_witness :
    Connection.read_json (T := ℕ) (fun _ => none) (fun _ => none)
      (Connection.mk (some (BaseConnection.mk
        (encode_frame opcode.PING [] ++ []) EndKind.wouldBlock [] false))
        true true true "a") =
      read_json_go (fun _ => none) (fun _ => none)
        (Connection.mk (some (BaseConnection.mk
          (encode_frame opcode.PING [] ++ []) EndKind.wouldBlock [] false))
          true true true "a")
        (BaseConnection.mk [] EndKind.wouldBlock
          ([] ++ encode_frame opcode.PONG []) false) ∧
    Connection.read_json (T := ℕ) (fun _ => none) (fun _ => none)
      (Connection.mk (some (BaseConnection.mk
        (encode_frame opcode.PONG [1] ++ []) EndKind.wouldBlock [] false))
        true true true "b") =
      read_json_go (fun _ => none) (fun _ => none)
        (Connection.mk (some (BaseConnection.mk
          (encode_frame opcode.PONG [1] ++ []) EndKind.wouldBlock [] false))
          true true true "b")
        (BaseConnection.mk [] EndKind.wouldBlock [] false) ∧
    Connection.read_json (T := ℕ) (fun _ => none) (fun _ => none)
      (Connection.mk (some (BaseConnection.mk
        (encode_frame opcode.PING [] ++ []) EndKind.wouldBlock [] true))
        true true true "c") =
      (.error .ioErr, Connection.mk none false true true "c",
       [Notif.disconnect none]) :=
  read_json_ping_pong (fun _ => none) (fun _ => none)
    (Connection.mk (some (BaseConnection.mk
      (encode_frame opcode.PING [] ++ []) EndKind.wouldBlock [] false))
      true true true "a")
    (BaseConnection.mk (encode_frame opcode.PING [] ++ [])
      EndKind.wouldBlock [] false)
    [] [] rfl (by decide) rfl rfl
    (Connection.mk (some (BaseConnection.mk
      (encode_frame opcode.PONG [1] ++ []) EndKind.wouldBlock [] false))
      true true true "b")
    (BaseConnection.mk (encode_frame opcode.PONG [1] ++ [])
      EndKind.wouldBlock [] false)
    [1] [] rfl (by decide) rfl
    (Connection.mk (some (BaseConnection.mk
      (encode_frame opcode.PING [] ++ []) EndKind.wouldBlock [] true))
      true true true "c")
    (BaseConnection.mk (encode_frame opcode.PING [] ++ [])
      EndKind.wouldBlock [] true)
    [] [] rfl (by decide) rfl rfl rfl

theorem read_json_close_frame_witness :
    Connection.read_json (T := ℕ) (fun _ => none)
      (fun _ => some (StreamError.mk "bye" 1))
      (Connection.mk (some (BaseConnection.mk
        (encode_frame opcode.CLOSE [1, 2] ++ []) EndKind.wouldBlock []
        false)) true true true "a") =
      (.error (.stream (some (StreamError.mk "bye" 1))),
       Connection.mk none false true true "a",
       [Notif.disconnect (some (StreamError.mk "bye" 1))]) ∧
    run_notifs [Notif.disconnect (some (StreamError.mk "bye" 1))] []
        (ReconnectionTime.mk (Backoff.mk 1 2 1) 0) (1/2) 3 =
      ([] ++ [Event.disconnected (some (StreamError.mk "bye" 1))],
       { backoff := ((Backoff.mk 1 2 1).next (1/2)).2,
         next_time := 3 + ((Backoff.mk 1 2 1).next (1/2)).1 }) :=
  read_json_close_frame (fun _ => none)
    (fun _ => some (StreamError.mk "bye" 1))
    (Connection.mk (some (BaseConnection.mk
      (encode_frame opcode.CLOSE [1, 2] ++ []) EndKind.wouldBlock []
      false)) true true true "a")
    (BaseConnection.mk (encode_frame opcode.CLOSE [1, 2] ++ [])
      EndKind.wouldBlock [] false)
    [1, 2] [] (StreamError.mk "bye" 1)
    rfl (by decide) rfl rfl rfl
    [] (ReconnectionTime.mk (Backoff.mk 1 2 1) 0) (1/2) 3

theorem presence_coalescing_witness :
    ∃ nv,
      (([some 5, none] : List (Option ℕ)).foldl
          (fun acc p => update_presence (fun pd nv2 _ => [pd, nv2.toNat])
            4 acc.1 acc.2 p)
          (SharedState.mk [] false false false, Nonce.mk 0)).1 =
        { SharedState.mk [] false false false with
            presence := (fun (pd : ℕ) (nv2 : ℤ) (_ : Option ℕ) =>
              [pd, nv2.toNat]) 4 nv
              (([some 5, none] : List (Option ℕ)).getLast (by decide)),
            presence_updated := true } ∧
      presence_flush
          (Connection.mk (some (BaseConnection.mk [] EndKind.wouldBlock []
            false)) true true true "a")
          { SharedState.mk [] false false false with
              presence := (fun (pd : ℕ) (nv2 : ℤ) (_ : Option ℕ) =>
                [pd, nv2.toNat]) 4 nv
                (([some 5, none] : List (Option ℕ)).getLast (by decide)),
              presence_updated := true } =
        ({ Connection.mk (some (BaseConnection.mk [] EndKind.wouldBlock []
            false)) true true true "a" with
            connection := some { BaseConnection.mk [] EndKind.wouldBlock []
                false with
              written := (BaseConnection.mk [] EndKind.wouldBlock []
                false).written ++ encode_frame opcode.FRAME
                  ((fun (pd : ℕ) (nv2 : ℤ) (_ : Option ℕ) =>
                    [pd, nv2.toNat]) 4 nv
                    (([some 5, none] : List (Option ℕ)).getLast
                      (by decide))) } },
         { SharedState.mk [] false false false with
             presence := (fun (pd : ℕ) (nv2 : ℤ) (_ : Option ℕ) =>
               [pd, nv2.toNat]) 4 nv
               (([some 5, none] : List (Option ℕ)).getLast (by decide)),
             presence_updated := false }) :=
  presence_coalescing (fun pd nv2 _ => [pd, nv2.toNat]) 4
    [some 5, none] (SharedState.mk [] false false false) (Nonce.mk 0)
    (by decide)
    (Connection.mk (some (BaseConnection.mk [] EndKind.wouldBlock [] false))
      true true true "a")
    (BaseConnection.mk [] EndKind.wouldBlock [] false)
    rfl rfl

theorem write_raw_transport_guard_witness :
    (Connection.mk none false false false "x").write_raw [1] =
      (.error .disconnected, Connection.mk none false false false "x") ∧
    (Connection.mk (some (BaseConnection.mk [] EndKind.wouldBlock [] false))
        true false false "y").write_raw [2] =
      (.ok (), Connection.mk (some (BaseConnection.mk [] EndKind.wouldBlock
        ([] ++ encode_frame opcode.FRAME [2]) false)) true false false
        "y") :=
  write_raw_transport_guard (Connection.mk none false false false "x") [1]
    rfl
    (Connection.mk (some (BaseConnection.mk [] EndKind.wouldBlock [] false))
      true false false "y")
    (BaseConnection.mk [] EndKind.wouldBlock [] false) [2] rfl rfl

end DiscordRpc

